import Mathlib

/-!
Shallow embedding of the timer subsystem of TEC_OFFICE_REPO
(`src/src/utils/timer.py` and `AirthAgent.control_pomodoro` in
`src/src/agents/airth_agent.py`).

Modelling conventions:
* Wall-clock time is `Nat` (seconds).  Every operation that reads the clock in
  Python (`datetime.utcnow()`) takes an explicit `now : Nat` argument.
* Durations configured in minutes become `now + 60 * minutes` seconds, mirroring
  `datetime.utcnow() + timedelta(minutes=d)`.
* `max(0, end_time - now)` on floats becomes truncated `Nat` subtraction.
* `current_phase` is `Option String`: Python stores arbitrary phase strings and
  `start` can even assign `None` to it, so an enumerated type would not be
  faithful.  `none` is Python `None`.
* Callbacks and the background thread are modelled by returning, next to the new
  state, the list of events whose callback lists `_trigger_callbacks` would run,
  in the order they are triggered.  The scheduled wake-up duration of a freshly
  started thread is `time_remaining` at the moment `_start_timer_thread` runs,
  exactly the value Python hands to `threading.Timer`.
-/

/-- The five callback events of `PomodoroTimer.callbacks` (the countdown timer
uses the subset `on_start`, `on_complete`, `on_cancel`). -/
inductive TimerEvent where
  | on_start
  | on_complete
  | on_pause
  | on_resume
  | on_cancel
deriving DecidableEq, Repr

/-- In-memory state of `PomodoroTimer` (`timer.py`, lines 46-59).  The
`timer_thread` handle is not part of the model; scheduling is captured by the
`time_remaining` value at thread-start time. -/
structure PomodoroTimer where
  work_minutes : Nat
  short_break_minutes : Nat
  long_break_minutes : Nat
  long_break_interval : Nat
  completed_pomodoros : Nat
  current_phase : Option String
  active : Bool
  end_time : Option Nat
deriving DecidableEq, Repr

/-- `PomodoroTimer.__init__` before `_load_state`: inactive, `idle`, no
deadline, zero completed pomodoros. -/
def PomodoroTimer.init (w sb lb interval : Nat) : PomodoroTimer :=
  { work_minutes := w
    short_break_minutes := sb
    long_break_minutes := lb
    long_break_interval := interval
    completed_pomodoros := 0
    current_phase := some "idle"
    active := false
    end_time := none }

/-- `max(0, (self.end_time - datetime.utcnow()).total_seconds())`, the value
computed in `_start_timer_thread`, `pause`, `resume` and `get_status`.  Python
would raise on `end_time = None`; the `none` case is never hit on the states the
theorems use. -/
def PomodoroTimer.time_remaining (s : PomodoroTimer) (now : Nat) : Nat :=
  match s.end_time with
  | some e => e - now
  | none => 0

/-- `PomodoroTimer._timer_complete` (lines 255-282): no-op while inactive;
otherwise a completed `work` phase increments `completed_pomodoros` and picks
`long_break` when the new count is divisible by `long_break_interval`, else
`short_break`; a completed break goes back to `work`.  `active` ends false,
`end_time` is left untouched, and the `on_complete` callbacks run. -/
def PomodoroTimer.timer_complete (s : PomodoroTimer) :
    PomodoroTimer × List TimerEvent :=
  if s.active = false then (s, [])
  else
    let s1 :=
      if s.current_phase = some "work" then
        let cp := s.completed_pomodoros + 1
        { s with
          completed_pomodoros := cp
          current_phase :=
            if cp % s.long_break_interval = 0 then some "long_break"
            else some "short_break" }
      else if s.current_phase = some "short_break" ∨
          s.current_phase = some "long_break" then
        { s with current_phase := some "work" }
      else s
    ({ s1 with active := false }, [TimerEvent.on_complete])

/-- `PomodoroTimer.start` (lines 198-244).  A no-op while active.  Python's
`if not phase` is true for `None` and for the empty string, which is why both
are tested.  NOTE the source order: `self.current_phase = phase` happens
*before* the duration lookup, so an unknown phase string is written into
`current_phase` even though the error branch then returns without starting. -/
def PomodoroTimer.start (s : PomodoroTimer) (phase : Option String) (now : Nat) :
    PomodoroTimer × List TimerEvent :=
  if s.active then (s, [])
  else
    let ph : Option String :=
      if phase = none ∨ phase = some "" then
        if s.current_phase = some "idle" ∨ s.current_phase = some "work" then
          some "work"
        else if s.current_phase = some "short_break" then some "work"
        else if s.current_phase = some "long_break" then some "work"
        else none
      else phase
    let s1 := { s with current_phase := ph }
    if ph = some "work" then
      ({ s1 with
          end_time := some (now + 60 * s.work_minutes)
          active := true }, [TimerEvent.on_start])
    else if ph = some "short_break" then
      ({ s1 with
          end_time := some (now + 60 * s.short_break_minutes)
          active := true }, [TimerEvent.on_start])
    else if ph = some "long_break" then
      ({ s1 with
          end_time := some (now + 60 * s.long_break_minutes)
          active := true }, [TimerEvent.on_start])
    else (s1, [])

/-- `PomodoroTimer.pause` (lines 284-308): only acts while active; computes the
remaining seconds, deactivates, and rewrites `end_time` to
`utcnow() + time_remaining` (an absolute timestamp, frozen at pause time). -/
def PomodoroTimer.pause (s : PomodoroTimer) (now : Nat) :
    PomodoroTimer × List TimerEvent :=
  if s.active = false then (s, [])
  else
    let r := s.time_remaining now
    ({ s with active := false, end_time := some (now + r) },
      [TimerEvent.on_pause])

/-- `PomodoroTimer.resume` (lines 310-331): rejected while active or while
`idle`; otherwise just flips `active` and restarts the thread, whose scheduled
duration is `time_remaining` *recomputed against the current clock*. -/
def PomodoroTimer.resume (s : PomodoroTimer) :
    PomodoroTimer × List TimerEvent :=
  if s.active then (s, [])
  else if s.current_phase = some "idle" then (s, [])
  else ({ s with active := true }, [TimerEvent.on_resume])

/-- `PomodoroTimer.cancel` (lines 333-355): a no-op only when inactive *and*
idle; otherwise resets to idle, clears `end_time`, and fires `on_cancel`. -/
def PomodoroTimer.cancel (s : PomodoroTimer) :
    PomodoroTimer × List TimerEvent :=
  if s.active = false ∧ s.current_phase = some "idle" then (s, [])
  else
    ({ s with active := false, current_phase := some "idle", end_time := none },
      [TimerEvent.on_cancel])

/-- `PomodoroTimer.skip` (lines 357-367): cancels the thread then delegates to
`_timer_complete`; the state change and events are exactly those of the
completion handler. -/
def PomodoroTimer.skip (s : PomodoroTimer) : PomodoroTimer × List TimerEvent :=
  s.timer_complete

/-- The parsed persisted record applied by `_load_state` (lines 156-171): the
fields of the JSON dict written by `_save_state`, with `end_time` already
converted from ISO-8601 to seconds. -/
structure TimerStateRecord where
  work_minutes : Nat
  short_break_minutes : Nat
  long_break_minutes : Nat
  long_break_interval : Nat
  completed_pomodoros : Nat
  current_phase : Option String
  active : Bool
  end_time : Option Nat
deriving DecidableEq, Repr

/-- The state-application tail of `PomodoroTimer._load_state` (lines 156-171),
run on a freshly constructed timer: copies the configuration, count and phase
unconditionally, then restores `active`/`end_time` (and starts the thread) only
when the stored state was active with `end_time` strictly in the future.  No
callbacks are triggered on either path. -/
def PomodoroTimer.apply_loaded_state (s : PomodoroTimer) (st : TimerStateRecord)
    (now : Nat) : PomodoroTimer × List TimerEvent :=
  let s1 := { s with
    work_minutes := st.work_minutes
    short_break_minutes := st.short_break_minutes
    long_break_minutes := st.long_break_minutes
    long_break_interval := st.long_break_interval
    completed_pomodoros := st.completed_pomodoros
    current_phase := st.current_phase }
  if st.active then
    match st.end_time with
    | some e =>
      if now < e then ({ s1 with active := true, end_time := some e }, [])
      else (s1, [])
    | none => (s1, [])
  else (s1, [])

/-- In-memory state of `CountdownTimer` (`timer.py`, lines 415-427). -/
structure CountdownTimer where
  active : Bool
  end_time : Option Nat
  timer_name : Option String
deriving DecidableEq, Repr

/-- `CountdownTimer.__init__`. -/
def CountdownTimer.init : CountdownTimer :=
  { active := false, end_time := none, timer_name := none }

/-- `CountdownTimer._timer_complete` (lines 461-476): no-op while inactive,
otherwise deactivates and fires `on_complete`. -/
def CountdownTimer.timer_complete (c : CountdownTimer) :
    CountdownTimer × List TimerEvent :=
  if c.active = false then (c, [])
  else ({ c with active := false }, [TimerEvent.on_complete])

/-- `CountdownTimer.cancel` (lines 478-498): no-op while inactive, otherwise
deactivates (leaving `end_time` and `timer_name` alone) and fires
`on_cancel`. -/
def CountdownTimer.cancel (c : CountdownTimer) :
    CountdownTimer × List TimerEvent :=
  if c.active = false then (c, [])
  else ({ c with active := false }, [TimerEvent.on_cancel])

/-- `CountdownTimer.start` (lines 431-459): an already active timer is first
cancelled (which fires `on_cancel`); then the name defaults, the deadline is
set, the thread starts and `on_start` fires.  Python's `timer_name or default`
treats the empty string like `None`. -/
def CountdownTimer.start (c : CountdownTimer) (minutes : Nat)
    (name : Option String) (now : Nat) : CountdownTimer × List TimerEvent :=
  let p := if c.active then c.cancel else (c, [])
  let nm :=
    match name with
    | some n =>
      if n = "" then "Timer for " ++ toString minutes ++ " minutes" else n
    | none => "Timer for " ++ toString minutes ++ " minutes"
  ({ p.1 with
      timer_name := some nm
      end_time := some (now + 60 * minutes)
      active := true }, p.2 ++ [TimerEvent.on_start])

/-- What the `try/except` around one callback in `_trigger_callbacks`
(lines 184-196) records: `none` for a normal return, `some e` for a logged
error message. -/
def cbLog : Except String Unit → Option String
  | Except.ok _ => none
  | Except.error e => some e

/-- The loop body of `PomodoroTimer._trigger_callbacks` (lines 191-196) over a
registered callback list: every callback is invoked with the timer, in list
order, and an error is logged without stopping the loop. -/
def runCallbacks (cbs : List (PomodoroTimer → Except String Unit))
    (s : PomodoroTimer) : List (Option String) :=
  match cbs with
  | [] => []
  | cb :: rest => cbLog (cb s) :: runCallbacks rest s

/-- `PomodoroTimer.add_callback` (lines 173-182): appends to the event's list,
so registration order is list order. -/
def addCallback (cbs : List (PomodoroTimer → Except String Unit))
    (cb : PomodoroTimer → Except String Unit) :
    List (PomodoroTimer → Except String Unit) :=
  cbs ++ [cb]

/-- `_timer_complete` followed by its `_trigger_callbacks("on_complete")` call:
the state transition is committed before any callback runs, so the resulting
state does not depend on callback outcomes. -/
def completeAndNotify (s : PomodoroTimer)
    (cbs : List (PomodoroTimer → Except String Unit)) :
    PomodoroTimer × List (Option String) :=
  let p := s.timer_complete
  (p.1, runCallbacks cbs p.1)

/-- Python's `str.lower()` as used by `control_pomodoro`, character by
character (the action strings involved are ASCII). -/
def strLower (s : String) : String :=
  String.mk (s.data.map Char.toLower)

/-- The `{success, message}` record returned by
`AirthAgent.control_pomodoro`. -/
structure ControlResult where
  success : Bool
  message : String
deriving DecidableEq, Repr

/-- `AirthAgent.control_pomodoro` (airth_agent.py, lines 580-642) with the
timer present: dispatches on `action.lower()` to `pause`/`resume`/`skip` and
answers `success = false` with `"Unknown action: " ++ action` for anything
else, leaving the timer untouched. -/
def control_pomodoro (s : PomodoroTimer) (action : String) (now : Nat) :
    PomodoroTimer × ControlResult :=
  if strLower action = "pause" then
    if s.active then ((s.pause now).1, ⟨true, "Pomodoro timer paused."⟩)
    else (s, ⟨false, "Pomodoro timer is not active."⟩)
  else if strLower action = "resume" then
    if s.active = false then
      ((s.resume).1, ⟨true, "Pomodoro timer resumed."⟩)
    else (s, ⟨false, "Pomodoro timer is already running."⟩)
  else if strLower action = "skip" then
    let s1 := (s.skip).1
    (s1, ⟨true, "Skipped to next phase: " ++
      (match s1.current_phase with | some p => p | none => "None")⟩)
  else (s, ⟨false, "Unknown action: " ++ action⟩)

/-- One public operation of `PomodoroTimer`, with the clock reading it uses. -/
inductive TimerAction where
  | act_start (phase : Option String) (now : Nat)
  | act_pause (now : Nat)
  | act_resume
  | act_skip
  | act_cancel
  | act_complete
deriving DecidableEq, Repr

/-- Apply one operation, keeping only the state. -/
def stepTimer (s : PomodoroTimer) (a : TimerAction) : PomodoroTimer :=
  match a with
  | TimerAction.act_start ph now => (s.start ph now).1
  | TimerAction.act_pause now => (s.pause now).1
  | TimerAction.act_resume => (s.resume).1
  | TimerAction.act_skip => (s.skip).1
  | TimerAction.act_cancel => (s.cancel).1
  | TimerAction.act_complete => (s.timer_complete).1

/-- Run a sequence of operations from a state. -/
def runTimer (s : PomodoroTimer) (acts : List TimerAction) : PomodoroTimer :=
  acts.foldl stepTimer s

/-- A phase argument `start` recognizes (or omits). -/
def validPhaseArg (ph : Option String) : Bool :=
  ph = none || ph = some "work" || ph = some "short_break" ||
    ph = some "long_break"

/-- An action whose `start` phase argument, if any, is recognized. -/
def validAction : TimerAction → Bool
  | TimerAction.act_start ph _ => validPhaseArg ph
  | _ => true

/-- The inductive invariant behind the `end_time`/`active` relationship: the
phase is one of the four documented values, the phase is `idle` exactly when no
deadline is stored, and an active timer is never `idle`. -/
def goodState (s : PomodoroTimer) : Prop :=
  (s.current_phase = some "idle" ∨ s.current_phase = some "work" ∨
    s.current_phase = some "short_break" ∨ s.current_phase = some "long_break") ∧
  (s.current_phase = some "idle" ↔ s.end_time = none) ∧
  (s.active = true → s.current_phase ≠ some "idle")

theorem goodState_init (w sb lb li : Nat) : goodState (PomodoroTimer.init w sb lb li) := by
  refine ⟨Or.inl rfl, ?_, ?_⟩ <;> simp [PomodoroTimer.init]

theorem goodState_step (s : PomodoroTimer) (a : TimerAction)
    (hs : goodState s) (ha : validAction a = true) : goodState (stepTimer s a) := by
  obtain ⟨hph, hiff, hact⟩ := hs
  cases a with
  | act_start ph now =>
    by_cases hA : s.active = true
    · simpa [stepTimer, PomodoroTimer.start, hA] using ⟨hph, hiff, hact⟩
    · have hA' : s.active = false := by simpa using hA
      have hv : ph = none ∨ ph = some "work" ∨ ph = some "short_break" ∨
          ph = some "long_break" := by
        simpa [validAction, validPhaseArg, or_assoc] using ha
      rcases hph with hcp | hcp | hcp | hcp <;>
        rcases hv with hv | hv | hv | hv <;>
          subst hv <;>
            simp [stepTimer, PomodoroTimer.start, hA', hcp, goodState]
  | act_pause now =>
    by_cases hA : s.active = true
    · have hne := hact hA
      have hen : s.end_time ≠ none := fun h => hne (hiff.mpr h)
      refine ⟨?_, ?_, ?_⟩
      · simpa [stepTimer, PomodoroTimer.pause, hA] using hph
      · simp [stepTimer, PomodoroTimer.pause, hA, hne]
      · simp [stepTimer, PomodoroTimer.pause, hA]
    · have hA' : s.active = false := by simpa using hA
      simpa [stepTimer, PomodoroTimer.pause, hA'] using ⟨hph, hiff, hact⟩
  | act_resume =>
    by_cases hA : s.active = true
    · simpa [stepTimer, PomodoroTimer.resume, hA] using ⟨hph, hiff, hact⟩
    · have hA' : s.active = false := by simpa using hA
      by_cases hid : s.current_phase = some "idle"
      · simpa [stepTimer, PomodoroTimer.resume, hA', hid] using ⟨hph, hiff, hact⟩
      · have hen : s.end_time ≠ none := fun h => hid (hiff.mpr h)
        refine ⟨?_, ?_, ?_⟩
        · simpa [stepTimer, PomodoroTimer.resume, hA', hid] using hph
        · simp [stepTimer, PomodoroTimer.resume, hA', hid, hen]
        · simp [stepTimer, PomodoroTimer.resume, hA', hid]
  | act_skip =>
    by_cases hA : s.active = true
    · have hne := hact hA
      have hen : s.end_time ≠ none := fun h => hne (hiff.mpr h)
      rcases hph with hcp | hcp | hcp | hcp
      · exact absurd hcp hne
      · by_cases hm : (s.completed_pomodoros + 1) % s.long_break_interval = 0 <;>
          refine ⟨?_, ?_, ?_⟩ <;>
            simp [stepTimer, PomodoroTimer.skip, PomodoroTimer.timer_complete,
              hA, hcp, hm, hen]
      · refine ⟨?_, ?_, ?_⟩ <;>
          simp [stepTimer, PomodoroTimer.skip, PomodoroTimer.timer_complete,
            hA, hcp, hen]
      · refine ⟨?_, ?_, ?_⟩ <;>
          simp [stepTimer, PomodoroTimer.skip, PomodoroTimer.timer_complete,
            hA, hcp, hen]
    · have hA' : s.active = false := by simpa using hA
      simpa [stepTimer, PomodoroTimer.skip, PomodoroTimer.timer_complete, hA']
        using ⟨hph, hiff, hact⟩
  | act_cancel =>
    by_cases hC : s.active = false ∧ s.current_phase = some "idle"
    · simpa [stepTimer, PomodoroTimer.cancel, hC] using ⟨hph, hiff, hact⟩
    · simp [stepTimer, PomodoroTimer.cancel, hC, goodState]
  | act_complete =>
    by_cases hA : s.active = true
    · have hne := hact hA
      have hen : s.end_time ≠ none := fun h => hne (hiff.mpr h)
      rcases hph with hcp | hcp | hcp | hcp
      · exact absurd hcp hne
      · by_cases hm : (s.completed_pomodoros + 1) % s.long_break_interval = 0 <;>
          refine ⟨?_, ?_, ?_⟩ <;>
            simp [stepTimer, PomodoroTimer.timer_complete, hA, hcp, hm, hen]
      · refine ⟨?_, ?_, ?_⟩ <;>
          simp [stepTimer, PomodoroTimer.timer_complete, hA, hcp, hen]
      · refine ⟨?_, ?_, ?_⟩ <;>
          simp [stepTimer, PomodoroTimer.timer_complete, hA, hcp, hen]
    · have hA' : s.active = false := by simpa using hA
      simpa [stepTimer, PomodoroTimer.timer_complete, hA'] using ⟨hph, hiff, hact⟩

theorem goodState_run (s : PomodoroTimer) (acts : List TimerAction)
    (hs : goodState s) (ha : ∀ a ∈ acts, validAction a = true) :
    goodState (runTimer s acts) := by
  induction acts generalizing s with
  | nil => simpa [runTimer] using hs
  | cons a rest ih =>
    have h1 : validAction a = true := ha a (List.mem_cons_self a rest)
    have h2 : ∀ b ∈ rest, validAction b = true := fun b hb =>
      ha b (List.mem_cons_of_mem a hb)
    simpa [runTimer, List.foldl_cons] using
      ih (stepTimer s a) (goodState_step s a hs h1) h2

theorem runCallbacks_append (cbs1 cbs2 : List (PomodoroTimer → Except String Unit))
    (s : PomodoroTimer) :
    runCallbacks (cbs1 ++ cbs2) s = runCallbacks cbs1 s ++ runCallbacks cbs2 s := by
  induction cbs1 with
  | nil => rfl
  | cons cb rest ih => simp [runCallbacks, ih]

theorem runCallbacks_length (cbs : List (PomodoroTimer → Except String Unit))
    (s : PomodoroTimer) : (runCallbacks cbs s).length = cbs.length := by
  induction cbs with
  | nil => rfl
  | cons cb rest ih => simp [runCallbacks, ih]

/-- C1: handling the completion (natural expiry or `skip`) of an active `work`
phase increments `completed_pomodoros` by exactly one, moves `current_phase` to
`long_break` when the new count is divisible by `long_break_interval` and to
`short_break` otherwise, and leaves `active` false (the break is not
auto-started); completing a break moves back to `work`, also not auto-started.
With `long_break_interval = 2` the sequence work-complete, short-break-complete,
work-complete ends in `long_break` with `completed_pomodoros = 2`. -/
theorem pomodoro_completion_cycle :
    (∀ s : PomodoroTimer, s.active = true → s.current_phase = some "work" →
      (s.timer_complete).1.completed_pomodoros = s.completed_pomodoros + 1 ∧
      (s.timer_complete).1.current_phase =
        (if (s.completed_pomodoros + 1) % s.long_break_interval = 0
          then some "long_break" else some "short_break") ∧
      (s.timer_complete).1.active = false ∧ s.skip = s.timer_complete) ∧
    (∀ s : PomodoroTimer, s.active = true →
      (s.current_phase = some "short_break" ∨ s.current_phase = some "long_break") →
      (s.timer_complete).1.current_phase = some "work" ∧
      (s.timer_complete).1.active = false ∧ s.skip = s.timer_complete) ∧
    ((runTimer (PomodoroTimer.init 25 5 15 2)
        [TimerAction.act_start none 0, TimerAction.act_complete,
         TimerAction.act_start (some "short_break") 1500, TimerAction.act_complete,
         TimerAction.act_start none 1800, TimerAction.act_complete]).current_phase =
        some "long_break" ∧
      (runTimer (PomodoroTimer.init 25 5 15 2)
        [TimerAction.act_start none 0, TimerAction.act_complete,
         TimerAction.act_start (some "short_break") 1500, TimerAction.act_complete,
         TimerAction.act_start none 1800, TimerAction.act_complete]).completed_pomodoros = 2 ∧
      (runTimer (PomodoroTimer.init 25 5 15 2)
        [TimerAction.act_start none 0, TimerAction.act_complete,
         TimerAction.act_start (some "short_break") 1500, TimerAction.act_complete,
         TimerAction.act_start none 1800, TimerAction.act_complete]).active = false) := by
  refine ⟨?_, ?_, by decide⟩
  · intro s h1 h2
    refine ⟨?_, ?_, ?_, rfl⟩ <;> simp [PomodoroTimer.timer_complete, h1, h2]
  · intro s h1 h2
    rcases h2 with h2 | h2 <;>
      exact ⟨by simp [PomodoroTimer.timer_complete, h1, h2],
        by simp [PomodoroTimer.timer_complete, h1, h2], rfl⟩

/-- Witness for C1: the first conjunct applied to a freshly started work
timer. -/
theorem pomodoro_completion_cycle_witness :
    (((PomodoroTimer.init 25 5 15 2).start none 0).1.active = true ∧
      ((PomodoroTimer.init 25 5 15 2).start none 0).1.current_phase = some "work") ∧
    ((((PomodoroTimer.init 25 5 15 2).start none 0).1.timer_complete).1.completed_pomodoros =
      ((PomodoroTimer.init 25 5 15 2).start none 0).1.completed_pomodoros + 1) :=
  ⟨by decide,
    (pomodoro_completion_cycle.1 (((PomodoroTimer.init 25 5 15 2).start none 0).1)
      (by decide) (by decide)).1⟩

/-- Counterexample to C2 as stated: after `start()` then `pause()` the timer is
reachable, inactive, and still carries `end_time = some 1500`, so `end_time` is
not set only while `active` is true. -/
theorem pomodoro_end_time_set_while_inactive :
    (runTimer (PomodoroTimer.init 25 5 15 4)
        [TimerAction.act_start none 0, TimerAction.act_pause 60]).active = false ∧
    (runTimer (PomodoroTimer.init 25 5 15 4)
        [TimerAction.act_start none 0, TimerAction.act_pause 60]).end_time = some 1500 := by
  decide

/-- C2 (amended): over every operation sequence from the initial state in which
each `start` uses a recognized (or omitted) phase argument, an active timer
always has `end_time` set.  The converse direction of the claimed iff is false:
`pause` and `_timer_complete` leave `end_time` set while `active` is false (see
the counterexample). -/
theorem pomodoro_active_implies_end_time
    (w sb lb li : Nat) (acts : List TimerAction)
    (hv : ∀ a ∈ acts, validAction a = true)
    (hA : (runTimer (PomodoroTimer.init w sb lb li) acts).active = true) :
    (runTimer (PomodoroTimer.init w sb lb li) acts).end_time ≠ none := by
  obtain ⟨hph, hiff, hact⟩ := goodState_run _ acts (goodState_init w sb lb li) hv
  exact fun h => hact hA (hiff.mpr h)

/-- Witness for C2: the amended theorem applied to the one-step sequence that
starts a work session. -/
theorem pomodoro_active_implies_end_time_witness :
    (∀ a ∈ [TimerAction.act_start none 0], validAction a = true) ∧
    (runTimer (PomodoroTimer.init 25 5 15 4) [TimerAction.act_start none 0]).active = true ∧
    (runTimer (PomodoroTimer.init 25 5 15 4) [TimerAction.act_start none 0]).end_time ≠ none :=
  ⟨by decide, by decide,
    pomodoro_active_implies_end_time 25 5 15 4 [TimerAction.act_start none 0]
      (by decide) (by decide)⟩

/-- Counterexample to C3 as stated: `start` with the unrecognized phase
`"banana"` on an inactive idle timer does not leave the state unchanged —
`current_phase` is overwritten with `"banana"` (the assignment in `start`
happens before the phase is validated). -/
theorem start_unknown_phase_overwrites_phase :
    ((PomodoroTimer.init 25 5 15 4).start (some "banana") 0).1.current_phase = some "banana" ∧
    ((PomodoroTimer.init 25 5 15 4).start (some "banana") 0).1.current_phase ≠ some "idle" := by
  decide

/-- C3 (amended): `start` with an unrecognized non-empty phase string on an
inactive timer starts nothing and fires no callbacks — `active`, `end_time`,
`completed_pomodoros` and the configured durations are unchanged — but
`current_phase` is overwritten with the unrecognized string (the failure is
only logged, naming the value); `control_pomodoro` with an unknown action
returns `success = false` with a message naming the action and no state
change. -/
theorem start_unknown_phase_and_unknown_action :
    (∀ (s : PomodoroTimer) (p : String) (now : Nat),
      s.active = false → p ≠ "" → p ≠ "work" → p ≠ "short_break" → p ≠ "long_break" →
      s.start (some p) now = ({ s with current_phase := some p }, [])) ∧
    (∀ (s : PomodoroTimer) (action : String) (now : Nat),
      strLower action ≠ "pause" → strLower action ≠ "resume" → strLower action ≠ "skip" →
      control_pomodoro s action now =
        (s, { success := false, message := "Unknown action: " ++ action })) := by
  constructor
  · intro s p now hA h0 h1 h2 h3
    simp [PomodoroTimer.start, hA, h0, h1, h2, h3]
  · intro s action now h1 h2 h3
    simp [control_pomodoro, h1, h2, h3]

/-- Witness for C3: both conjuncts applied to the phase `"banana"` and the
action `"explode"`. -/
theorem start_unknown_phase_and_unknown_action_witness :
    ((PomodoroTimer.init 25 5 15 4).start (some "banana") 7 =
      ({ PomodoroTimer.init 25 5 15 4 with current_phase := some "banana" }, [])) ∧
    (control_pomodoro (PomodoroTimer.init 25 5 15 4) "explode" 7 =
      (PomodoroTimer.init 25 5 15 4,
        { success := false, message := "Unknown action: explode" })) :=
  ⟨start_unknown_phase_and_unknown_action.1 (PomodoroTimer.init 25 5 15 4) "banana" 7
      rfl (by decide) (by decide) (by decide) (by decide),
    start_unknown_phase_and_unknown_action.2 (PomodoroTimer.init 25 5 15 4) "explode" 7
      (by decide) (by decide) (by decide)⟩

/-- C4 evaluation at the failing input: a work timer started at time 0 with
1440 seconds remaining at `pause` time 60 is resumed at time 660; the restarted
countdown is scheduled for `end_time - now = 840` seconds, not the 1440 seconds
remaining when it was paused — the wall-clock time spent paused is lost,
because `pause` freezes `end_time` as an absolute timestamp while the thread
restarted by `resume` recomputes the remaining time against the current clock.
`current_phase` and `completed_pomodoros` are unchanged, as claimed. -/
theorem pause_resume_drops_paused_walltime :
    (((PomodoroTimer.init 25 5 15 4).start none 0).1.time_remaining 60 = 1440) ∧
    (((((PomodoroTimer.init 25 5 15 4).start none 0).1.pause 60).1.resume).1.active = true) ∧
    (((((PomodoroTimer.init 25 5 15 4).start none 0).1.pause 60).1.resume).1.time_remaining 660
      = 840) ∧
    (((((PomodoroTimer.init 25 5 15 4).start none 0).1.pause 60).1.resume).1.time_remaining 660
      ≠ ((PomodoroTimer.init 25 5 15 4).start none 0).1.time_remaining 60) ∧
    (((((PomodoroTimer.init 25 5 15 4).start none 0).1.pause 60).1.resume).1.current_phase =
      ((PomodoroTimer.init 25 5 15 4).start none 0).1.current_phase) ∧
    (((((PomodoroTimer.init 25 5 15 4).start none 0).1.pause 60).1.resume).1.completed_pomodoros =
      ((PomodoroTimer.init 25 5 15 4).start none 0).1.completed_pomodoros) := by
  decide

/-- Counterexample to C5 as stated: loading a persisted record with
`active = true`, `current_phase = "work"` and `end_time = 10` at time 20 (so the
deadline has passed) leaves `current_phase = some "work"` — the phase is copied
before the expiry check and is not reset toward idle.  `active` does stay
false. -/
theorem load_stale_state_keeps_phase :
    ((PomodoroTimer.init 25 5 15 4).apply_loaded_state
        ⟨25, 5, 15, 4, 3, some "work", true, some 10⟩ 20).1.current_phase = some "work" ∧
    ((PomodoroTimer.init 25 5 15 4).apply_loaded_state
        ⟨25, 5, 15, 4, 3, some "work", true, some 10⟩ 20).1.current_phase ≠ some "idle" ∧
    ((PomodoroTimer.init 25 5 15 4).apply_loaded_state
        ⟨25, 5, 15, 4, 3, some "work", true, some 10⟩ 20).1.active = false := by
  decide

/-- C5 (amended): loading a persisted `active = true` state whose `end_time`
is not in the future keeps the constructing timer's `active` and `end_time`
(false and unset on a fresh construction) and fires no completion callback, but
`current_phase` becomes the persisted phase rather than being reset to idle;
when `end_time` is still in the future the timer resumes: `active = true`, the
stored `end_time`, and a wake-up scheduled for the remaining `e - now`
seconds. -/
theorem load_state_expiry_handling :
    (∀ (s : PomodoroTimer) (st : TimerStateRecord) (now e : Nat),
      st.active = true → st.end_time = some e → e ≤ now →
      (s.apply_loaded_state st now).1.active = s.active ∧
      (s.apply_loaded_state st now).1.end_time = s.end_time ∧
      (s.apply_loaded_state st now).1.current_phase = st.current_phase ∧
      (s.apply_loaded_state st now).2 = []) ∧
    (∀ (s : PomodoroTimer) (st : TimerStateRecord) (now e : Nat),
      st.active = true → st.end_time = some e → now < e →
      (s.apply_loaded_state st now).1.active = true ∧
      (s.apply_loaded_state st now).1.end_time = some e ∧
      (s.apply_loaded_state st now).1.time_remaining now = e - now ∧
      (s.apply_loaded_state st now).2 = []) := by
  constructor
  · intro s st now e hA hE hle
    have h : ¬ now < e := not_lt.mpr hle
    simp [PomodoroTimer.apply_loaded_state, hA, hE, h]
  · intro s st now e hA hE hlt
    simp [PomodoroTimer.apply_loaded_state, PomodoroTimer.time_remaining, hA, hE, hlt]

/-- Witness for C5: both conjuncts applied to a freshly constructed timer and
a record with deadline 10, at times 20 (stale) and 5 (still running). -/
theorem load_state_expiry_handling_witness :
    (((PomodoroTimer.init 25 5 15 4).apply_loaded_state
        ⟨25, 5, 15, 4, 3, some "work", true, some 10⟩ 20).1.active =
      (PomodoroTimer.init 25 5 15 4).active) ∧
    (((PomodoroTimer.init 25 5 15 4).apply_loaded_state
        ⟨25, 5, 15, 4, 3, some "work", true, some 10⟩ 5).1.active = true) :=
  ⟨(load_state_expiry_handling.1 (PomodoroTimer.init 25 5 15 4)
      ⟨25, 5, 15, 4, 3, some "work", true, some 10⟩ 20 10 rfl rfl (by decide)).1,
    (load_state_expiry_handling.2 (PomodoroTimer.init 25 5 15 4)
      ⟨25, 5, 15, 4, 3, some "work", true, some 10⟩ 5 10 rfl rfl (by decide)).1⟩

/-- C6: on an inactive timer whose phase is one of `idle`, `work`,
`short_break`, `long_break`, calling `start` with no phase begins a work
session — phase `work`, `active = true`, `end_time = now + work_minutes`, with
the `on_start` callbacks fired; on an already active timer `start` is a no-op
leaving all state unchanged and firing nothing. -/
theorem start_no_phase_begins_work :
    (∀ (s : PomodoroTimer) (now : Nat), s.active = false →
      (s.current_phase = some "idle" ∨ s.current_phase = some "work" ∨
        s.current_phase = some "short_break" ∨ s.current_phase = some "long_break") →
      s.start none now =
        ({ s with
            current_phase := some "work"
            active := true
            end_time := some (now + 60 * s.work_minutes) }, [TimerEvent.on_start])) ∧
    (∀ (s : PomodoroTimer) (ph : Option String) (now : Nat),
      s.active = true → s.start ph now = (s, [])) := by
  constructor
  · intro s now hA hph
    rcases hph with h | h | h | h <;> simp [PomodoroTimer.start, hA, h]
  · intro s ph now hA
    simp [PomodoroTimer.start, hA]

/-- Witness for C6: the no-argument `start` on a freshly initialized
timer. -/
theorem start_no_phase_begins_work_witness :
    (PomodoroTimer.init 25 5 15 4).start none 3 =
      ({ PomodoroTimer.init 25 5 15 4 with
          current_phase := some "work"
          active := true
          end_time := some (3 + 60 * (PomodoroTimer.init 25 5 15 4).work_minutes) },
        [TimerEvent.on_start]) :=
  start_no_phase_begins_work.1 (PomodoroTimer.init 25 5 15 4) 3 rfl (Or.inl rfl)

/-- Counterexample to C7 as stated: for a `PomodoroTimer`, when natural
completion wins the race and an explicit `cancel` follows, *both* `on_complete`
and `on_cancel` fire — `PomodoroTimer.cancel` only no-ops when the timer is
inactive *and* already idle, and completion leaves the phase at the next
non-idle value. -/
theorem pomodoro_race_fires_both_events :
    ((((PomodoroTimer.init 25 5 15 4).start none 0).1.timer_complete).2 =
      [TimerEvent.on_complete]) ∧
    (((((PomodoroTimer.init 25 5 15 4).start none 0).1.timer_complete).1.cancel).2 =
      [TimerEvent.on_cancel]) := by
  decide

/-- C7 (amended): the completion handler of either timer is a no-op (no state
change, no callbacks) when `active` is already false, so at most one completion
notification ever occurs and `active` ends false.  For `CountdownTimer` exactly
one of `on_cancel`/`on_complete` fires in either ordering of a cancel versus
natural completion race; for `PomodoroTimer` a cancel that loses the race still
fires `on_cancel` after `on_complete`, since its `cancel` is only a no-op on an
inactive *idle* timer. -/
theorem completion_noop_when_inactive :
    (∀ s : PomodoroTimer, s.active = false → s.timer_complete = (s, [])) ∧
    (∀ c : CountdownTimer, c.active = false → c.timer_complete = (c, [])) ∧
    (∀ c : CountdownTimer, c.active = true →
      (c.timer_complete).2 = [TimerEvent.on_complete] ∧
      ((c.timer_complete).1.cancel) = ((c.timer_complete).1, []) ∧
      (c.timer_complete).1.active = false ∧
      (c.cancel).2 = [TimerEvent.on_cancel] ∧
      ((c.cancel).1.timer_complete) = ((c.cancel).1, []) ∧
      (c.cancel).1.active = false) ∧
    (∀ s : PomodoroTimer, s.active = true → s.current_phase ≠ some "idle" →
      ((s.timer_complete).1.cancel).2 = [TimerEvent.on_cancel]) := by
  refine ⟨?_, ?_, ?_, ?_⟩
  · intro s h; simp [PomodoroTimer.timer_complete, h]
  · intro c h; simp [CountdownTimer.timer_complete, h]
  · intro c h
    refine ⟨?_, ?_, ?_, ?_, ?_, ?_⟩ <;>
      simp [CountdownTimer.timer_complete, CountdownTimer.cancel, h]
  · intro s hA hne
    by_cases hw : s.current_phase = some "work"
    · by_cases hm : (s.completed_pomodoros + 1) % s.long_break_interval = 0 <;>
        simp [PomodoroTimer.timer_complete, PomodoroTimer.cancel, hA, hw, hm]
    · by_cases hb : s.current_phase = some "short_break" ∨ s.current_phase = some "long_break"
      · simp [PomodoroTimer.timer_complete, PomodoroTimer.cancel, hA, hw, hb]
      · simp [PomodoroTimer.timer_complete, PomodoroTimer.cancel, hA, hw, hb, hne]

/-- Witness for C7: the four conjuncts applied to fresh and freshly-started
timers of both kinds. -/
theorem completion_noop_when_inactive_witness :
    ((PomodoroTimer.init 25 5 15 4).timer_complete = (PomodoroTimer.init 25 5 15 4, [])) ∧
    (CountdownTimer.init.timer_complete = (CountdownTimer.init, [])) ∧
    ((((CountdownTimer.init).start 5 none 0).1.timer_complete).2 =
      [TimerEvent.on_complete]) ∧
    (((((PomodoroTimer.init 25 5 15 4).start none 0).1.timer_complete).1.cancel).2 =
      [TimerEvent.on_cancel]) :=
  ⟨completion_noop_when_inactive.1 (PomodoroTimer.init 25 5 15 4) rfl,
    completion_noop_when_inactive.2.1 CountdownTimer.init rfl,
    (completion_noop_when_inactive.2.2.1 (((CountdownTimer.init).start 5 none 0).1)
      (by decide)).1,
    completion_noop_when_inactive.2.2.2 (((PomodoroTimer.init 25 5 15 4).start none 0).1)
      (by decide) (by decide)⟩

/-- C8: `_trigger_callbacks` invokes every registered callback with the timer,
in registration order (`add_callback` appends, and runs over a concatenation
are concatenations of runs); a callback that raises is logged and does not
prevent any remaining callback from running; and the state transition that
triggered the callbacks is committed independently of callback outcomes. -/
theorem trigger_callbacks_isolated_in_order :
    (∀ (cbs : List (PomodoroTimer → Except String Unit)) (s : PomodoroTimer),
      (runCallbacks cbs s).length = cbs.length) ∧
    (∀ (cbs1 cbs2 : List (PomodoroTimer → Except String Unit)) (s : PomodoroTimer),
      runCallbacks (cbs1 ++ cbs2) s = runCallbacks cbs1 s ++ runCallbacks cbs2 s) ∧
    (∀ (pre post : List (PomodoroTimer → Except String Unit))
      (cb : PomodoroTimer → Except String Unit) (s : PomodoroTimer) (e : String),
      cb s = Except.error e →
      runCallbacks (pre ++ cb :: post) s =
        runCallbacks pre s ++ some e :: runCallbacks post s) ∧
    (∀ (cbs : List (PomodoroTimer → Except String Unit))
      (cb : PomodoroTimer → Except String Unit) (s : PomodoroTimer),
      runCallbacks (addCallback cbs cb) s = runCallbacks cbs s ++ [cbLog (cb s)]) ∧
    (∀ (s : PomodoroTimer) (cbs : List (PomodoroTimer → Except String Unit)),
      (completeAndNotify s cbs).1 = (s.timer_complete).1) := by
  refine ⟨runCallbacks_length, runCallbacks_append, ?_, ?_, ?_⟩
  · intro pre post cb s e h
    simp [runCallbacks_append, runCallbacks, cbLog, h]
  · intro cbs cb s
    simp [addCallback, runCallbacks_append, runCallbacks]
  · intro s cbs
    rfl

/-- Witness for C8: a failing callback between two succeeding ones — all three
run and the failure is logged in place. -/
theorem trigger_callbacks_isolated_in_order_witness :
    ((fun _ : PomodoroTimer => (Except.error "boom" : Except String Unit))
        (PomodoroTimer.init 25 5 15 4) = Except.error "boom") ∧
    (runCallbacks
        ([fun _ => (Except.ok () : Except String Unit)] ++
          (fun _ : PomodoroTimer => (Except.error "boom" : Except String Unit)) ::
            [fun _ => (Except.ok () : Except String Unit)])
        (PomodoroTimer.init 25 5 15 4) =
      runCallbacks [fun _ => (Except.ok () : Except String Unit)]
          (PomodoroTimer.init 25 5 15 4) ++
        some "boom" :: runCallbacks [fun _ => (Except.ok () : Except String Unit)]
          (PomodoroTimer.init 25 5 15 4)) :=
  ⟨rfl,
    trigger_callbacks_isolated_in_order.2.2.1
      [fun _ => (Except.ok () : Except String Unit)]
      [fun _ => (Except.ok () : Except String Unit)]
      (fun _ : PomodoroTimer => (Except.error "boom" : Except String Unit))
      (PomodoroTimer.init 25 5 15 4) "boom" rfl⟩

/-- C9: cancelling an inactive `CountdownTimer` is a no-op: the state is
unchanged and no `on_cancel` callback fires. -/
theorem countdown_cancel_inactive_noop (c : CountdownTimer)
    (h : c.active = false) : c.cancel = (c, []) := by
  simp [CountdownTimer.cancel, h]

/-- Witness for C9: `cancel` on a freshly initialized countdown timer. -/
theorem countdown_cancel_inactive_noop_witness :
    CountdownTimer.init.cancel = (CountdownTimer.init, []) :=
  countdown_cancel_inactive_noop CountdownTimer.init rfl

/-- C10: `skip` on an inactive `PomodoroTimer` (idle or paused) changes
nothing — `current_phase`, `completed_pomodoros`, `active` and `end_time` are
untouched and no callbacks fire — because the completion handler it delegates
to returns immediately when `active` is false. -/
theorem skip_inactive_noop (s : PomodoroTimer) (h : s.active = false) :
    s.skip = (s, []) := by
  simp [PomodoroTimer.skip, PomodoroTimer.timer_complete, h]

/-- Witness for C10: `skip` on a started-then-paused timer. -/
theorem skip_inactive_noop_witness :
    ((((PomodoroTimer.init 25 5 15 4).start none 0).1.pause 60).1).skip =
      (((((PomodoroTimer.init 25 5 15 4).start none 0).1.pause 60).1), []) :=
  skip_inactive_noop ((((PomodoroTimer.init 25 5 15 4).start none 0).1.pause 60).1) (by decide)
